import Mathlib

/-!
Verification of the description-enhancement subsystem of the products
service: the two-tier enhancement cache (`Cache.Get` / `Cache.Set`), the
generation client (`GenerateDescription` with its `isPlaceholder` policy)
and the orchestrator (`enhanceDescription`).

The Go code is embedded shallowly:
* machine time (`time.Now()`) is passed explicitly as a `Nat` of
  nanoseconds, matching the unit of Go `time.Duration`;
* the Dapr state-store client is a record of response functions, so that
  theorems quantify over every possible behaviour of the durable tier;
* the external chat-completion service is a response function from the
  request the client builds to either an error or a list of choices;
* metric recording (`ai.RecordRequest`, `ai.RecordCacheHit`,
  `ai.RecordError`, `ai.RecordLatency`) is embedded as the ordered list of
  metric events emitted during a call;
* as ghost instrumentation, `Cache.Get` additionally reports whether the
  durable tier was consulted, and `GenerateDescription` additionally
  reports the list of requests it sent to the external service.  This
  extra output records the calls the Go code makes; the computed values
  are otherwise verbatim translations.
-/

namespace DaprStore

deriving instance DecidableEq for Except

/-- Go `len(s)` on a string is its UTF-8 byte length. -/
def byteLength (s : String) : Nat :=
  s.data.foldl (fun n c => n + c.utf8Size) 0

/-- Substring search on character lists: Go `strings.Contains`. -/
def listContainsSub (sub : List Char) : List Char → Bool
  | [] => sub.isEmpty
  | c :: rest => sub.isPrefixOf (c :: rest) || listContainsSub sub rest

/-- Go `strings.Contains(s, sub)`. -/
def strContains (s sub : String) : Bool :=
  listContainsSub sub.data s.data

/-- The function `isPlaceholder` from generator.go: a description is a placeholder when
its byte length is below 20 or it contains the literal `"..."`. -/
def isPlaceholder (desc : String) : Bool :=
  if byteLength desc < 20 then true
  else if strContains desc "..." then true
  else false

/-- The request `GenerateDescription` assembles for the external
chat-completion call: the system and user messages, the deployment name,
`MaxTokens`, `Temperature` (the Go literal `0.7`, kept in tenths to stay
exact) and the timeout of the derived context, in seconds. -/
structure ChatRequest where
  systemMsg : String
  userPrompt : String
  deployment : String
  maxTokens : Nat
  temperatureTenths : Nat
  timeoutSeconds : Nat
deriving DecidableEq

/-- One choice of a chat-completion response.  The outer `Option` is the
`Message` pointer, the inner `Option` the `Content` pointer. -/
structure ChatChoice where
  message : Option (Option String)
deriving DecidableEq

/-- The behaviour of the external chat-completion service: for each request
either a transport error or a (possibly empty) list of choices. -/
def ChatService : Type :=
  ChatRequest → Except String (List ChatChoice)

/-- Constant `generationTimeout = 5 * time.Second`, in seconds. -/
def generationTimeoutSeconds : Nat := 5

/-- The concrete request generator.go builds: fixed system message, the
user prompt built from the product name, 200 max tokens, temperature 0.7
and the 5-second derived deadline. -/
def mkChatRequest (deployment productName : String) : ChatRequest :=
  { systemMsg :=
      "You are a creative product description writer. Write engaging, concise descriptions."
  , userPrompt :=
      "Write a compelling 2-3 sentence product description for: " ++ productName
  , deployment := deployment
  , maxTokens := 200
  , temperatureTenths := 7
  , timeoutSeconds := generationTimeoutSeconds }

/-- The emptiness check of generator.go on a response: `none` when
`len(resp.Choices) == 0`, `Choices[0].Message == nil` or
`Choices[0].Message.Content == nil`; otherwise the pointed-to content. -/
def extractContent : List ChatChoice → Option String
  | [] => none
  | ch :: _ =>
    match ch.message with
    | some (some content) => some content
    | _ => none

/-- The method `Client.GenerateDescription` from generator.go.  Returns the result
and, as ghost instrumentation, the list of requests sent to the external
service (empty when the placeholder check short-circuits). -/
def GenerateDescription (svc : ChatService)
    (deployment productName currentDesc : String) :
    Except String String × List ChatRequest :=
  if ! isPlaceholder currentDesc then (Except.ok currentDesc, [])
  else
    match svc (mkChatRequest deployment productName) with
    | Except.error e =>
      (Except.error ("failed to generate description: " ++ e), [mkChatRequest deployment productName])
    | Except.ok choices =>
      match extractContent choices with
      | none => (Except.error "no description generated", [mkChatRequest deployment productName])
      | some content => (Except.ok content, [mkChatRequest deployment productName])

/-- Constant `cacheTTL = 24 * time.Hour`, in nanoseconds. -/
def cacheTTL : Nat := 24 * 60 * 60 * 1000000000

/-- The state item a Dapr `GetState` returns; `value` is the byte payload
(`""` meaning an empty / absent value). -/
structure StateItem where
  value : String

/-- The durable tier: response functions for `GetState` and `SaveState`.
`saveState key bytes ttlMeta` returns `none` on success or `some err`;
`ttlMeta` is the `ttlInSeconds` metadata string the caller supplies. -/
structure DaprClient where
  getState : String → Except String StateItem
  saveState : String → String → String → Option String

/-- A cache entry of the in-process tier. -/
structure cacheEntry where
  value : String
  expiresAt : Nat
deriving DecidableEq

/-- The two-tier enhancement cache: an optional Dapr client (durable tier)
and the in-process map, embedded as an association list. -/
structure Cache where
  daprClient : Option DaprClient
  memCache : List (String × cacheEntry)

/-- Go map lookup on the association-list embedding. -/
def mapLookup (k : String) : List (String × cacheEntry) → Option cacheEntry
  | [] => none
  | (k2, v) :: rest => if k2 = k then some v else mapLookup k rest

/-- Go map assignment on the association-list embedding: overwrite the
binding of `k` if present, else append it. -/
def mapInsert (k : String) (v : cacheEntry) :
    List (String × cacheEntry) → List (String × cacheEntry)
  | [] => [(k, v)]
  | (k2, v2) :: rest =>
    if k2 = k then (k, v) :: rest else (k2, v2) :: mapInsert k v rest

/-- Key derivation `fmt.Sprintf("ai-desc-%s", productID)`. -/
def keyFor (productID : String) : String :=
  "ai-desc-" ++ productID

/-- The durable-tier half of `Cache.Get` (the code both branches fall
through to): query Dapr when configured, mapping an empty payload to the
not-found value `""`.  The `Bool` reports whether Dapr was consulted. -/
def Cache.getDurable (c : Cache) (key : String) :
    Except String String × Bool :=
  match c.daprClient with
  | some d =>
    match d.getState key with
    | Except.error e => (Except.error e, true)
    | Except.ok item =>
      if item.value = "" then (Except.ok "", true)
      else (Except.ok item.value, true)
  | none => (Except.ok "", false)

/-- The method `Cache.Get` from cache.go: the in-process tier answers when its entry
is strictly unexpired (`time.Now().Before(expiresAt)`); otherwise the
durable tier is consulted when configured.  `now` is the query time. -/
def Cache.Get (c : Cache) (now : Nat) (productID : String) :
    Except String String × Bool :=
  match mapLookup (keyFor productID) c.memCache with
  | some entry =>
    if now < entry.expiresAt then (Except.ok entry.value, false)
    else Cache.getDurable c (keyFor productID)
  | none => Cache.getDurable c (keyFor productID)

/-- The method `Cache.Set` from cache.go: unconditionally store in the in-process
tier with expiry `now + cacheTTL`, then store in Dapr when configured with
the `ttlInSeconds` metadata, returning its error as the result. -/
def Cache.Set (c : Cache) (now : Nat) (productID description : String) :
    Cache × Option String :=
  let c2 : Cache :=
    { c with memCache := mapInsert (keyFor productID) (cacheEntry.mk description (now + cacheTTL)) c.memCache }
  match c.daprClient with
  | some d =>
    (c2, d.saveState (keyFor productID) description (toString (cacheTTL / 1000000000)))
  | none => (c2, none)

/-- One metric event, in emission order: `ai.RecordRequest`,
`ai.RecordCacheHit`, `ai.RecordLatency` (payload `time.Since(start)` in
nanoseconds) and `ai.RecordError`. -/
inductive MetricEvent where
  | request (status : String)
  | cacheHit
  | latency (elapsed : Nat)
  | errorKind (kind : String)
deriving DecidableEq

/-- Everything one orchestrator call produces: the returned description,
the cache state after the call, the metric events in order, and the ghost
list of external chat requests made. -/
structure EnhanceResult where
  description : String
  cache : Cache
  events : List MetricEvent
  requests : List ChatRequest

/-- The hit test of the orchestrator, `if err == nil && cached != ""`:
`some cached` exactly when the lookup succeeded with a non-empty value. -/
def hitOf (c : Cache) (now : Nat) (productID : String) : Option String :=
  match (Cache.Get c now productID).1 with
  | Except.ok v => if v = "" then none else some v
  | Except.error _ => none

/-- The generation path of `enhanceDescription` (everything after the
cache check): generate, fall back to `currentDesc` on error with the
`generation_failed` and `error` metrics, otherwise cache the result
(recording `cache_failed` if the write fails) and record `success` plus a
latency sample.  `now` is the start time, `later` the time after
generation (so the latency sample is `later - now`). -/
def genPath (svc : ChatService) (deployment : String) (now later : Nat)
    (c : Cache) (productID productName currentDesc : String) : EnhanceResult :=
  match GenerateDescription svc deployment productName currentDesc with
  | (Except.error _, reqs) =>
    { description := currentDesc
    , cache := c
    , events := [MetricEvent.errorKind "generation_failed", MetricEvent.request "error"]
    , requests := reqs }
  | (Except.ok description, reqs) =>
    { description := description
    , cache := (Cache.Set c later productID description).1
    , events :=
        (match (Cache.Set c later productID description).2 with
         | some _ => [MetricEvent.errorKind "cache_failed"]
         | none => []) ++
        [MetricEvent.request "success", MetricEvent.latency (later - now)]
    , requests := reqs }

/-- The method `API.enhanceDescription` from the routes file: on a cache hit with a
non-empty value record a cache hit and return it, otherwise take the
generation path. -/
def enhanceDescription (svc : ChatService) (deployment : String)
    (now later : Nat) (c : Cache)
    (productID productName currentDesc : String) : EnhanceResult :=
  match hitOf c now productID with
  | some cached =>
    { description := cached, cache := c
    , events := [MetricEvent.cacheHit], requests := [] }
  | none => genPath svc deployment now later c productID productName currentDesc

/-- A cache with no durable tier and an empty in-process tier
(`NewMemoryCache`). -/
def emptyCache : Cache :=
  { daprClient := none, memCache := [] }

/-- An external service that always fails with a transport error. -/
def svcFail : ChatService :=
  fun _ => Except.error "boom"

/-- An external service that always answers with one non-empty content. -/
def svcOk : ChatService :=
  fun _ => Except.ok [{ message := some (some "A lovely thing.") }]

/-- An external service whose successful response carries a pointer to the
empty string: well-formed for the nil checks of generator.go, yet empty. -/
def svcEmptyContent : ChatService :=
  fun _ => Except.ok [{ message := some (some "") }]

/-- A durable tier whose reads succeed with an empty value and whose
writes always fail. -/
def daprWriteErr : DaprClient :=
  { getState := fun _ => Except.ok { value := "" }
  , saveState := fun _ _ _ => some "save down" }

/-- A durable tier whose reads fail and whose writes succeed. -/
def daprReadErr : DaprClient :=
  { getState := fun _ => Except.error "read down"
  , saveState := fun _ _ _ => none }

/-- A durable tier holding a fixed value, with succeeding writes. -/
def daprHolds : DaprClient :=
  { getState := fun _ => Except.ok { value := "durable value" }
  , saveState := fun _ _ _ => none }

/-- Whether a generation result is an error. -/
def isErr : Except String String → Bool
  | Except.error _ => true
  | Except.ok _ => false

/-- Nineteen two-byte characters: 19 characters, 38 UTF-8 bytes. -/
def multibyteDesc : String := "ééééééééééééééééééé"

/-- A 50-character ASCII description without an ellipsis. -/
def fiftyDesc : String := "A sturdy, reliable widget that is built to last us"

/-- A 41-character ASCII description without an ellipsis. -/
def realDesc : String := "This is a perfectly adequate description."

/-- The in-process tier misses: no entry under the key, or an entry whose
expiry is not strictly in the future. -/
def memMiss (c : Cache) (now : Nat) (productID : String) : Bool :=
  match mapLookup (keyFor productID) c.memCache with
  | some entry => if now < entry.expiresAt then false else true
  | none => true

theorem mapLookup_mapInsert_self (k : String) (v : cacheEntry)
    (l : List (String × cacheEntry)) :
    mapLookup k (mapInsert k v l) = some v := by
  induction l with
  | nil => simp [mapInsert, mapLookup]
  | cons p rest ih =>
    obtain ⟨k2, v2⟩ := p
    by_cases h : k2 = k
    · simp [mapInsert, h, mapLookup]
    · simp [mapInsert, h, mapLookup, ih]

theorem Cache.Set_memCache (c : Cache) (now : Nat) (productID description : String) :
    (Cache.Set c now productID description).1.memCache
      = mapInsert (keyFor productID)
          (cacheEntry.mk description (now + cacheTTL)) c.memCache := by
  unfold Cache.Set
  rcases hd : c.daprClient with _ | d <;> simp [hd]

theorem Cache.Set_daprClient (c : Cache) (now : Nat) (productID description : String) :
    (Cache.Set c now productID description).1.daprClient = c.daprClient := by
  unfold Cache.Set
  rcases hd : c.daprClient with _ | d <;> simp [hd]

/-- C3: `Cache.Get` checks the in-process tier first and an unexpired
entry is returned without consulting the durable tier (the consultation
flag is `false`); on an in-process miss the durable tier is queried only
when configured, a non-empty durable value is returned as found, absence
with no durable tier is the not-found value `""`, and a durable error is
propagated as `Except.error`, distinct from not-found.  `Cache.Get`
returns no updated cache: the source takes only a read lock, so the
in-process tier is never back-filled by a get. -/
theorem C3_cache_get_tiers (c : Cache) (now : Nat) (productID : String) :
    (∀ entry, mapLookup (keyFor productID) c.memCache = some entry →
        now < entry.expiresAt →
        Cache.Get c now productID = (Except.ok entry.value, false))
    ∧ (memMiss c now productID = true → c.daprClient = none →
        Cache.Get c now productID = (Except.ok "", false))
    ∧ (∀ d item, memMiss c now productID = true → c.daprClient = some d →
        d.getState (keyFor productID) = Except.ok item → ¬ item.value = "" →
        Cache.Get c now productID = (Except.ok item.value, true))
    ∧ (∀ d e, memMiss c now productID = true → c.daprClient = some d →
        d.getState (keyFor productID) = Except.error e →
        Cache.Get c now productID = (Except.error e, true)) := by
  refine ⟨?_, ?_, ?_, ?_⟩
  · intro entry h1 h2
    simp [Cache.Get, h1, h2]
  · intro hmiss hd
    unfold memMiss at hmiss
    rcases hml : mapLookup (keyFor productID) c.memCache with _ | entry
    · simp [Cache.Get, hml, Cache.getDurable, hd]
    · rw [hml] at hmiss
      by_cases hlt : now < entry.expiresAt
      · simp [hlt] at hmiss
      · simp [Cache.Get, hml, hlt, Cache.getDurable, hd]
  · intro d item hmiss hd hget hne
    unfold memMiss at hmiss
    rcases hml : mapLookup (keyFor productID) c.memCache with _ | entry
    · simp [Cache.Get, hml, Cache.getDurable, hd, hget, hne]
    · rw [hml] at hmiss
      by_cases hlt : now < entry.expiresAt
      · simp [hlt] at hmiss
      · simp [Cache.Get, hml, hlt, Cache.getDurable, hd, hget, hne]
  · intro d e hmiss hd hget
    unfold memMiss at hmiss
    rcases hml : mapLookup (keyFor productID) c.memCache with _ | entry
    · simp [Cache.Get, hml, Cache.getDurable, hd, hget]
    · rw [hml] at hmiss
      by_cases hlt : now < entry.expiresAt
      · simp [hlt] at hmiss
      · simp [Cache.Get, hml, hlt, Cache.getDurable, hd, hget]

theorem C3_witness :
    Cache.Get (Cache.mk none [("ai-desc-p1", cacheEntry.mk "cached" 100)]) 50 "p1"
      = (Except.ok "cached", false)
    ∧ Cache.Get (Cache.mk none [("ai-desc-p1", cacheEntry.mk "cached" 100)]) 200 "p1"
      = (Except.ok "", false)
    ∧ Cache.Get (Cache.mk (some daprHolds) []) 0 "p1"
      = (Except.ok "durable value", true)
    ∧ Cache.Get (Cache.mk (some daprReadErr) []) 0 "p1"
      = (Except.error "read down", true) := by
  refine ⟨?_, ?_, ?_, ?_⟩
  · exact
      (C3_cache_get_tiers (Cache.mk none [("ai-desc-p1", cacheEntry.mk "cached" 100)]) 50 "p1").1
        (cacheEntry.mk "cached" 100) (by decide) (by decide)
  · exact
      (C3_cache_get_tiers (Cache.mk none [("ai-desc-p1", cacheEntry.mk "cached" 100)]) 200 "p1").2.1
        (by decide) rfl
  · exact
      (C3_cache_get_tiers (Cache.mk (some daprHolds) []) 0 "p1").2.2.1
        daprHolds (StateItem.mk "durable value") (by decide) rfl rfl (by decide)
  · exact
      (C3_cache_get_tiers (Cache.mk (some daprReadErr) []) 0 "p1").2.2.2
        daprReadErr "read down" (by decide) rfl rfl

/-- C4: `Cache.Set` rewrites the in-process tier unconditionally, binding
the key to the value with expiry `now + cacheTTL` and overwriting any
previous entry; with no durable tier it reports success, and with one it
reports exactly the durable result of saving under the same key with the
`ttlInSeconds` hint `"86400"` (24 hours), the in-process write standing
either way. -/
theorem C4_cache_set (c : Cache) (now : Nat) (productID description : String) :
    (Cache.Set c now productID description).1.memCache
      = mapInsert (keyFor productID)
          (cacheEntry.mk description (now + cacheTTL)) c.memCache
    ∧ mapLookup (keyFor productID) (Cache.Set c now productID description).1.memCache
      = some (cacheEntry.mk description (now + cacheTTL))
    ∧ (c.daprClient = none → (Cache.Set c now productID description).2 = none)
    ∧ (∀ d, c.daprClient = some d →
        (Cache.Set c now productID description).2
          = d.saveState (keyFor productID) description (toString (cacheTTL / 1000000000)))
    ∧ toString (cacheTTL / 1000000000) = "86400" := by
  refine ⟨Cache.Set_memCache c now productID description, ?_, ?_, ?_, by decide⟩
  · rw [Cache.Set_memCache c now productID description]
    exact mapLookup_mapInsert_self _ _ _
  · intro hd
    unfold Cache.Set
    simp [hd]
  · intro d hd
    unfold Cache.Set
    simp [hd]

theorem C4_witness :
    mapLookup (keyFor "p1")
      ((Cache.Set (Cache.mk (some daprWriteErr) [("ai-desc-p1", cacheEntry.mk "old" 3)]) 5 "p1" "val").1.memCache)
      = some (cacheEntry.mk "val" (5 + cacheTTL))
    ∧ (Cache.Set (Cache.mk (some daprWriteErr) [("ai-desc-p1", cacheEntry.mk "old" 3)]) 5 "p1" "val").2
      = some "save down" := by
  refine ⟨(C4_cache_set (Cache.mk (some daprWriteErr) [("ai-desc-p1", cacheEntry.mk "old" 3)]) 5 "p1" "val").2.1, ?_⟩
  have h :=
    (C4_cache_set (Cache.mk (some daprWriteErr) [("ai-desc-p1", cacheEntry.mk "old" 3)]) 5 "p1" "val").2.2.2.1
      daprWriteErr rfl
  exact h.trans rfl

/-- C7: an entry written at time `tWrite` carries expiry
`tWrite + cacheTTL` (24 hours); with no durable tier a query strictly
before that expiry returns the value and a query at or after it reports
not-found, so the entry is valid exactly while `now < expiresAt`. -/
theorem C7_ttl_expiry (mem : List (String × cacheEntry))
    (tWrite tQuery : Nat) (productID v : String) :
    mapLookup (keyFor productID)
      ((Cache.Set (Cache.mk none mem) tWrite productID v).1.memCache)
      = some (cacheEntry.mk v (tWrite + cacheTTL))
    ∧ (tQuery < tWrite + cacheTTL →
        Cache.Get ((Cache.Set (Cache.mk none mem) tWrite productID v).1) tQuery productID
          = (Except.ok v, false))
    ∧ (tWrite + cacheTTL ≤ tQuery →
        Cache.Get ((Cache.Set (Cache.mk none mem) tWrite productID v).1) tQuery productID
          = (Except.ok "", false)) := by
  have hmem :
      (Cache.Set (Cache.mk none mem) tWrite productID v).1.memCache
        = mapInsert (keyFor productID) (cacheEntry.mk v (tWrite + cacheTTL)) mem :=
    Cache.Set_memCache (Cache.mk none mem) tWrite productID v
  have hlook :
      mapLookup (keyFor productID)
        ((Cache.Set (Cache.mk none mem) tWrite productID v).1.memCache)
        = some (cacheEntry.mk v (tWrite + cacheTTL)) := by
    rw [hmem]; exact mapLookup_mapInsert_self _ _ _
  have hdc :
      (Cache.Set (Cache.mk none mem) tWrite productID v).1.daprClient = none :=
    Cache.Set_daprClient (Cache.mk none mem) tWrite productID v
  refine ⟨hlook, ?_, ?_⟩
  · intro hlt
    simp [Cache.Get, hlook, hlt]
  · intro hge
    have hnlt : ¬ tQuery < tWrite + cacheTTL := not_lt.mpr hge
    simp [Cache.Get, hlook, hnlt, Cache.getDurable, hdc]

theorem C7_witness :
    mapLookup (keyFor "p1")
      ((Cache.Set (Cache.mk none []) 0 "p1" "A great widget.").1.memCache)
      = some (cacheEntry.mk "A great widget." (0 + cacheTTL))
    ∧ Cache.Get ((Cache.Set (Cache.mk none []) 0 "p1" "A great widget.").1)
        (cacheTTL - 1) "p1" = (Except.ok "A great widget.", false)
    ∧ Cache.Get ((Cache.Set (Cache.mk none []) 0 "p1" "A great widget.").1)
        (cacheTTL + 1) "p1" = (Except.ok "", false) := by
  refine ⟨(C7_ttl_expiry [] 0 (cacheTTL - 1) "p1" "A great widget.").1, ?_, ?_⟩
  · exact (C7_ttl_expiry [] 0 (cacheTTL - 1) "p1" "A great widget.").2.1 (by decide)
  · exact (C7_ttl_expiry [] 0 (cacheTTL + 1) "p1" "A great widget.").2.2 (by decide)

theorem hitOf_ne_empty (c : Cache) (now : Nat) (productID v : String)
    (h : hitOf c now productID = some v) : ¬ v = "" := by
  unfold hitOf at h
  rcases hg : (Cache.Get c now productID).1 with e | w
  · rw [hg] at h
    simp at h
  · rw [hg] at h
    by_cases hw : w = ""
    · simp [hw] at h
    · simp [hw] at h
      rw [← h]
      exact hw

theorem hitOf_of_get_ok (c : Cache) (now : Nat) (productID v : String)
    (h : (Cache.Get c now productID).1 = Except.ok v) (hv : ¬ v = "") :
    hitOf c now productID = some v := by
  unfold hitOf
  rw [h]
  simp [hv]

theorem hitOf_of_get_error (c : Cache) (now : Nat) (productID e : String)
    (h : (Cache.Get c now productID).1 = Except.error e) :
    hitOf c now productID = none := by
  unfold hitOf
  rw [h]

/-- C6: when the cache lookup succeeds with a non-empty value the
orchestrator records exactly a cache-hit metric, returns the cached value,
leaves the cache untouched, and sends no request to the external
generation service; consequently after a successful `Cache.Set` of a
non-empty value, a later orchestration within the TTL window makes no
generation request. -/
theorem C6_cache_hit_short_circuit (svc : ChatService) (deployment : String)
    (now later t1 t2 : Nat) (c : Cache)
    (productID productName currentDesc v : String) :
    ((Cache.Get c now productID).1 = Except.ok v → ¬ v = "" →
      (enhanceDescription svc deployment now later c productID productName currentDesc).description = v
      ∧ (enhanceDescription svc deployment now later c productID productName currentDesc).cache = c
      ∧ (enhanceDescription svc deployment now later c productID productName currentDesc).events
          = [MetricEvent.cacheHit]
      ∧ (enhanceDescription svc deployment now later c productID productName currentDesc).requests = [])
    ∧ (¬ v = "" → t2 < t1 + cacheTTL →
      (enhanceDescription svc deployment t2 later (Cache.Set c t1 productID v).1 productID productName currentDesc).description = v
      ∧ (enhanceDescription svc deployment t2 later (Cache.Set c t1 productID v).1 productID productName currentDesc).events
          = [MetricEvent.cacheHit]
      ∧ (enhanceDescription svc deployment t2 later (Cache.Set c t1 productID v).1 productID productName currentDesc).requests = []) := by
  constructor
  · intro hget hv
    have hh : hitOf c now productID = some v := hitOf_of_get_ok c now productID v hget hv
    refine ⟨?_, ?_, ?_, ?_⟩ <;> simp [enhanceDescription, hh]
  · intro hv hlt
    have hl : mapLookup (keyFor productID) (Cache.Set c t1 productID v).1.memCache
        = some (cacheEntry.mk v (t1 + cacheTTL)) := by
      rw [Cache.Set_memCache]
      exact mapLookup_mapInsert_self _ _ _
    have hget : (Cache.Get (Cache.Set c t1 productID v).1 t2 productID).1 = Except.ok v := by
      simp [Cache.Get, hl, hlt]
    have hh : hitOf (Cache.Set c t1 productID v).1 t2 productID = some v :=
      hitOf_of_get_ok _ t2 productID v hget hv
    refine ⟨?_, ?_, ?_⟩ <;> simp [enhanceDescription, hh]

theorem C6_witness :
    (enhanceDescription svcFail "dep" 5 9 (Cache.Set emptyCache 0 "p1" "A great widget.").1 "p1" "Widget" "short").description
      = "A great widget."
    ∧ (enhanceDescription svcFail "dep" 5 9 (Cache.Set emptyCache 0 "p1" "A great widget.").1 "p1" "Widget" "short").events
      = [MetricEvent.cacheHit]
    ∧ (enhanceDescription svcFail "dep" 5 9 (Cache.Set emptyCache 0 "p1" "A great widget.").1 "p1" "Widget" "short").requests
      = [] :=
  (C6_cache_hit_short_circuit svcFail "dep" 5 9 0 5 emptyCache "p1" "Widget" "short" "A great widget.").2
    (by decide) (by decide)

/-- C2: on a call with no cache hit where generation fails, the
orchestrator returns the original description with the cache untouched and
emits exactly the `generation_failed` error metric (once) and the `error`
outcome metric (once): no success outcome and no latency sample. -/
theorem C2_generation_failure_fallback (svc : ChatService) (deployment : String)
    (now later : Nat) (c : Cache) (productID productName currentDesc e : String)
    (hmiss : hitOf c now productID = none)
    (hgen : (GenerateDescription svc deployment productName currentDesc).1 = Except.error e) :
    (enhanceDescription svc deployment now later c productID productName currentDesc).description = currentDesc
    ∧ (enhanceDescription svc deployment now later c productID productName currentDesc).cache = c
    ∧ (enhanceDescription svc deployment now later c productID productName currentDesc).events
        = [MetricEvent.errorKind "generation_failed", MetricEvent.request "error"]
    ∧ (enhanceDescription svc deployment now later c productID productName currentDesc).events.count
        (MetricEvent.errorKind "generation_failed") = 1
    ∧ (enhanceDescription svc deployment now later c productID productName currentDesc).events.count
        (MetricEvent.request "error") = 1
    ∧ (enhanceDescription svc deployment now later c productID productName currentDesc).events.count
        (MetricEvent.request "success") = 0
    ∧ ∀ l, MetricEvent.latency l ∉ (enhanceDescription svc deployment now later c productID productName currentDesc).events := by
  rcases hG : GenerateDescription svc deployment productName currentDesc with ⟨g1, g2⟩
  rw [hG] at hgen
  simp at hgen
  subst hgen
  have hE : enhanceDescription svc deployment now later c productID productName currentDesc
      = { description := currentDesc, cache := c
        , events := [MetricEvent.errorKind "generation_failed", MetricEvent.request "error"]
        , requests := g2 } := by
    simp [enhanceDescription, hmiss, genPath, hG]
  rw [hE]
  refine ⟨rfl, rfl, rfl, rfl, rfl, rfl, ?_⟩
  intro l
  simp

theorem C2_witness :
    (enhanceDescription svcFail "dep" 0 3 emptyCache "p1" "Widget" "short").description = "short"
    ∧ (enhanceDescription svcFail "dep" 0 3 emptyCache "p1" "Widget" "short").events
      = [MetricEvent.errorKind "generation_failed", MetricEvent.request "error"] := by
  have h := C2_generation_failure_fallback svcFail "dep" 0 3 emptyCache "p1" "Widget" "short"
    "failed to generate description: boom" (by decide) (by decide)
  exact ⟨h.1, h.2.2.1⟩

/-- C10: on a call with no cache hit where the current description is not
a placeholder, no request is sent to the external service, yet the
original description is written into the in-process tier under the product
key, a success outcome and a latency sample are recorded, and the original
description is returned. -/
theorem C10_real_description_cached (svc : ChatService) (deployment : String)
    (now later : Nat) (c : Cache) (productID productName currentDesc : String)
    (hmiss : hitOf c now productID = none)
    (hreal : isPlaceholder currentDesc = false) :
    (enhanceDescription svc deployment now later c productID productName currentDesc).requests = []
    ∧ (enhanceDescription svc deployment now later c productID productName currentDesc).description = currentDesc
    ∧ mapLookup (keyFor productID)
        (enhanceDescription svc deployment now later c productID productName currentDesc).cache.memCache
      = some (cacheEntry.mk currentDesc (later + cacheTTL))
    ∧ MetricEvent.request "success"
        ∈ (enhanceDescription svc deployment now later c productID productName currentDesc).events
    ∧ MetricEvent.latency (later - now)
        ∈ (enhanceDescription svc deployment now later c productID productName currentDesc).events := by
  have hgen : GenerateDescription svc deployment productName currentDesc
      = (Except.ok currentDesc, []) := by
    simp [GenerateDescription, hreal]
  have hE : enhanceDescription svc deployment now later c productID productName currentDesc
      = { description := currentDesc
        , cache := (Cache.Set c later productID currentDesc).1
        , events :=
            (match (Cache.Set c later productID currentDesc).2 with
             | some _ => [MetricEvent.errorKind "cache_failed"]
             | none => []) ++
            [MetricEvent.request "success", MetricEvent.latency (later - now)]
        , requests := [] } := by
    simp [enhanceDescription, hmiss, genPath, hgen]
  rw [hE]
  refine ⟨rfl, rfl, ?_, ?_, ?_⟩
  · rw [Cache.Set_memCache]
    exact mapLookup_mapInsert_self _ _ _
  · rcases h2 : (Cache.Set c later productID currentDesc).2 with _ | err <;> simp [h2]
  · rcases h2 : (Cache.Set c later productID currentDesc).2 with _ | err <;> simp [h2]

theorem C10_witness :
    (enhanceDescription svcFail "dep" 0 4 emptyCache "p1" "Widget" realDesc).requests = []
    ∧ (enhanceDescription svcFail "dep" 0 4 emptyCache "p1" "Widget" realDesc).description = realDesc
    ∧ MetricEvent.request "success"
        ∈ (enhanceDescription svcFail "dep" 0 4 emptyCache "p1" "Widget" realDesc).events := by
  have h := C10_real_description_cached svcFail "dep" 0 4 emptyCache "p1" "Widget" realDesc
    (by decide) (by decide)
  exact ⟨h.1, h.2.1, h.2.2.2.1⟩

/-- C1 as stated fails on the code: generator.go rejects a nil `Message`
or `Content` pointer but accepts a pointer to the empty string, so an
external response whose single choice carries content `""` makes the
orchestrator return the empty string although the input description
`"short"` is non-empty. -/
theorem C1_counterexample :
    ¬ "short" = ""
    ∧ (enhanceDescription svcEmptyContent "dep" 0 0 emptyCache "p1" "Widget" "short").description
      = "" :=
  ⟨by decide, by decide⟩

/-- C1 amended: the orchestrator never propagates an error (its embedding
is a total, description-valued function) and its output is non-empty
whenever the input description is non-empty, provided every successful
response of the external service carries non-empty message content. -/
theorem C1_output_nonempty (svc : ChatService) (deployment : String)
    (now later : Nat) (c : Cache) (productID productName currentDesc : String)
    (hdesc : ¬ currentDesc = "")
    (hsvc : ∀ req choices, svc req = Except.ok choices → ¬ extractContent choices = some "") :
    ¬ (enhanceDescription svc deployment now later c productID productName currentDesc).description
      = "" := by
  rcases hh : hitOf c now productID with _ | cached
  · cases hp : isPlaceholder currentDesc
    · have hgen : GenerateDescription svc deployment productName currentDesc
          = (Except.ok currentDesc, []) := by
        simp [GenerateDescription, hp]
      simp [enhanceDescription, hh, genPath, hgen]
      exact hdesc
    · rcases hs : svc (mkChatRequest deployment productName) with e | choices
      · have hgen : GenerateDescription svc deployment productName currentDesc
            = (Except.error ("failed to generate description: " ++ e),
               [mkChatRequest deployment productName]) := by
          simp [GenerateDescription, hp, hs]
        simp [enhanceDescription, hh, genPath, hgen]
        exact hdesc
      · rcases hx : extractContent choices with _ | content
        · have hgen : GenerateDescription svc deployment productName currentDesc
              = (Except.error "no description generated",
                 [mkChatRequest deployment productName]) := by
            simp [GenerateDescription, hp, hs, hx]
          simp [enhanceDescription, hh, genPath, hgen]
          exact hdesc
        · have hgen : GenerateDescription svc deployment productName currentDesc
              = (Except.ok content, [mkChatRequest deployment productName]) := by
            simp [GenerateDescription, hp, hs, hx]
          have hc : ¬ content = "" := by
            have h2 := hsvc (mkChatRequest deployment productName) choices hs
            rw [hx] at h2
            simp at h2
            exact h2
          simp [enhanceDescription, hh, genPath, hgen]
          exact hc
  · have hc := hitOf_ne_empty c now productID cached hh
    simp [enhanceDescription, hh]
    exact hc

theorem C1_witness :
    ¬ (enhanceDescription svcOk "dep" 0 0 emptyCache "p1" "Widget" "short").description = "" := by
  refine C1_output_nonempty svcOk "dep" 0 0 emptyCache "p1" "Widget" "short" (by decide) ?_
  intro req choices h
  have h2 : [ChatChoice.mk (some (some "A lovely thing."))] = choices := by
    have h3 := h
    simp [svcOk] at h3
    exact h3
  rw [← h2]
  decide

/-- C8 as stated fails on the code: with a durable tier whose read fails
(and whose write succeeds) and a non-placeholder description, the lookup
returns an error, the orchestrator proceeds as on a miss, and the emitted
metrics are exactly a success outcome and a latency sample: the read error
is never recorded as an error metric. -/
theorem C8_counterexample :
    (Cache.Get (Cache.mk (some daprReadErr) []) 0 "p1").1 = Except.error "read down"
    ∧ (enhanceDescription svcFail "dep" 0 7 (Cache.mk (some daprReadErr) []) "p1" "Widget" realDesc).events
      = [MetricEvent.request "success", MetricEvent.latency 7] :=
  ⟨by decide, by decide⟩

/-- C8 amended: a durable-tier read error makes the orchestrator behave
exactly as on a cache miss (the generation path is taken and no cache-hit
metric is recorded), but the read error itself is not recorded: the only
error kinds the orchestrator ever records are `generation_failed` and
`cache_failed`. -/
theorem C8_read_error_is_miss (svc : ChatService) (deployment : String)
    (now later : Nat) (c : Cache) (productID productName currentDesc e : String)
    (herr : (Cache.Get c now productID).1 = Except.error e) :
    enhanceDescription svc deployment now later c productID productName currentDesc
      = genPath svc deployment now later c productID productName currentDesc
    ∧ MetricEvent.cacheHit
        ∉ (enhanceDescription svc deployment now later c productID productName currentDesc).events
    ∧ ∀ k, MetricEvent.errorKind k
        ∈ (enhanceDescription svc deployment now later c productID productName currentDesc).events →
        k = "generation_failed" ∨ k = "cache_failed" := by
  have hh : hitOf c now productID = none := hitOf_of_get_error c now productID e herr
  have hE : enhanceDescription svc deployment now later c productID productName currentDesc
      = genPath svc deployment now later c productID productName currentDesc := by
    simp [enhanceDescription, hh]
  refine ⟨hE, ?_, ?_⟩
  · rw [hE]
    rcases hG : GenerateDescription svc deployment productName currentDesc with ⟨g1, g2⟩
    rcases g1 with e2 | d
    · simp [genPath, hG]
    · rcases h2 : (Cache.Set c later productID d).2 with _ | err <;>
        simp [genPath, hG, h2]
  · intro k hk
    rw [hE] at hk
    rcases hG : GenerateDescription svc deployment productName currentDesc with ⟨g1, g2⟩
    rcases g1 with e2 | d
    · simp [genPath, hG] at hk
      exact Or.inl hk
    · rcases h2 : (Cache.Set c later productID d).2 with _ | err
      · simp [genPath, hG, h2] at hk
      · simp [genPath, hG, h2] at hk
        exact Or.inr hk

theorem C8_witness :
    enhanceDescription svcOk "dep" 0 0 (Cache.mk (some daprReadErr) []) "p1" "Widget" "short"
      = genPath svcOk "dep" 0 0 (Cache.mk (some daprReadErr) []) "p1" "Widget" "short" :=
  (C8_read_error_is_miss svcOk "dep" 0 0 (Cache.mk (some daprReadErr) []) "p1" "Widget" "short"
    "read down" (by decide)).1

/-- C5 as stated fails on the code: Go `len` counts UTF-8 bytes, not
characters, so nineteen two-byte characters (19 characters, 38 bytes, no
ellipsis) are not judged a placeholder although the character count is
below 20. -/
theorem C5_counterexample :
    ¬ (isPlaceholder multibyteDesc = true
        ↔ (multibyteDesc.length < 20 ∨ strContains multibyteDesc "..." = true)) := by
  decide

/-- C5 amended: a string is judged a placeholder exactly when its UTF-8
byte length is below 20 or it contains the literal `"..."` (so a
50-character ASCII string without an ellipsis is not a placeholder), and a
description judged real is returned unchanged by `GenerateDescription`
with no error and no external request. -/
theorem C5_placeholder_policy (s productName deployment : String) (svc : ChatService) :
    (isPlaceholder s = true ↔ (byteLength s < 20 ∨ strContains s "..." = true))
    ∧ (isPlaceholder s = false →
        GenerateDescription svc deployment productName s = (Except.ok s, [])) := by
  constructor
  · unfold isPlaceholder
    by_cases h1 : byteLength s < 20
    · simp [h1]
    · by_cases h2 : strContains s "..." = true
      · simp [h1, h2]
      · simp [h1, h2]
  · intro h
    simp [GenerateDescription, h]

theorem C5_witness :
    fiftyDesc.length = 50
    ∧ GenerateDescription svcFail "dep" "Widget" fiftyDesc = (Except.ok fiftyDesc, []) :=
  ⟨by decide, (C5_placeholder_policy fiftyDesc "Widget" "dep" svcFail).2 (by decide)⟩

/-- C9: when the current description is a placeholder, exactly one request
is sent to the external service (no internal retry), it carries the
5-second derived deadline, the 200-token output limit and sampling
temperature 0.7 (kept in tenths), and the call returns an error exactly
when the external call fails or the response is well-formed but empty (no
choices, or a choice with no message content). -/
theorem C9_generation_call (svc : ChatService) (deployment productName currentDesc : String)
    (hph : isPlaceholder currentDesc = true) :
    (GenerateDescription svc deployment productName currentDesc).2
      = [mkChatRequest deployment productName]
    ∧ (mkChatRequest deployment productName).maxTokens = 200
    ∧ (mkChatRequest deployment productName).temperatureTenths = 7
    ∧ (mkChatRequest deployment productName).timeoutSeconds = generationTimeoutSeconds
    ∧ generationTimeoutSeconds = 5
    ∧ (isErr (GenerateDescription svc deployment productName currentDesc).1 = true
        ↔ ((∃ e, svc (mkChatRequest deployment productName) = Except.error e)
           ∨ (∃ choices, svc (mkChatRequest deployment productName) = Except.ok choices
               ∧ extractContent choices = none))) := by
  rcases hs : svc (mkChatRequest deployment productName) with e | choices
  · refine ⟨?_, rfl, rfl, rfl, rfl, ?_⟩
    · simp [GenerateDescription, hph, hs]
    · simp [GenerateDescription, hph, hs, isErr]
  · rcases hx : extractContent choices with _ | content
    · refine ⟨?_, rfl, rfl, rfl, rfl, ?_⟩
      · simp [GenerateDescription, hph, hs, hx]
      · simp [GenerateDescription, hph, hs, hx, isErr]
    · refine ⟨?_, rfl, rfl, rfl, rfl, ?_⟩
      · simp [GenerateDescription, hph, hs, hx]
      · simp [GenerateDescription, hph, hs, hx, isErr]

theorem C9_witness :
    (GenerateDescription svcFail "dep" "Widget" "short").2 = [mkChatRequest "dep" "Widget"]
    ∧ isErr (GenerateDescription svcFail "dep" "Widget" "short").1 = true := by
  have h := C9_generation_call svcFail "dep" "Widget" "short" (by decide)
  exact ⟨h.1, h.2.2.2.2.2.mpr (Or.inl ⟨"boom", rfl⟩)⟩

end DaprStore
